import Mathlib

/-!
Shallow embedding of `src/dband.py`, a VASP density-of-states analysis
script, and proofs of its specified behaviour.

Modelling conventions:
* Python floats are modelled as rationals (`ℚ`); all quantities the claims
  compare (thresholds, differences, averages) are exact arithmetic.
* Printed lines are modelled as an explicit list of `OutLine` values, one
  constructor per distinct `print` statement of the script, carrying the
  data interpolated into the line (string formatting itself is abstracted).
* The external pymatgen library functions (`get_band_center`,
  `get_band_filling`, `get_band_skewness`, `get_band_kurtosis`,
  `get_band_width`) are out of scope in the source; they are fields of
  `CompleteDos`, arbitrary functions returning `Except String ℚ` so that a
  library call can also raise.  Every invocation the script makes is
  recorded in a `LibCall` trace, so "the Analyzer stage was / was not
  invoked" is a statement about the trace.
* A Python exception is an `Except.error`; a caught exception never appears
  in their output; the `None` sentinel is `Option.none`.
-/

/-- Spin channel, mirroring `pymatgen.electronic_structure.core.Spin`. -/
inductive Spin where
  | up
  | down
deriving DecidableEq, Repr

/-- Orbital type, mirroring `pymatgen.electronic_structure.core.OrbitalType`. -/
inductive OrbitalType where
  | s
  | p
  | d
  | f
deriving DecidableEq, Repr

/-- An energy window `[lo, hi]`; the source passes two-element Python lists. -/
abbrev ERange := ℚ × ℚ

/-- One atomic site of the parsed crystal structure: an element label and
fractional coordinates, the two attributes the script reads. -/
structure Site where
  species_string : String
  frac_coords : ℚ × ℚ × ℚ
deriving DecidableEq, Repr

/-- A value for each spin channel, mirroring the
`{'spin_up': ..., 'spin_down': ...}` sub-dictionaries of the result. -/
structure SpinPair where
  spin_up : ℚ
  spin_down : ℚ
deriving DecidableEq, Repr

/-- The result dictionary assembled by `analyze_d_band_properties`
(lines 141-165 of the source): echoed metadata plus the five descriptor
pairs, i.e. exactly ten scalars. -/
structure BandResults where
  fermi_energy : ℚ
  site_index : Int
  site_element : String
  band_centers : SpinPair
  band_fillings : SpinPair
  band_skewness : SpinPair
  band_kurtosis : SpinPair
  band_widths : SpinPair
deriving DecidableEq, Repr

/-- One invocation of a pymatgen descriptor routine, with the arguments the
script passes.  `filling` has no energy-window argument because the source
calls `get_band_filling` without an `erange` keyword (lines 83-93). -/
inductive LibCall where
  | center (sites : List Site) (spin : Spin) (erange : ERange) (band : OrbitalType)
  | filling (sites : List Site) (spin : Spin) (band : OrbitalType)
  | skewness (sites : List Site) (spin : Spin) (erange : ERange) (band : OrbitalType)
  | kurtosis (sites : List Site) (spin : Spin) (erange : ERange) (band : OrbitalType)
  | width (sites : List Site) (spin : Spin) (erange : ERange) (band : OrbitalType)
deriving DecidableEq, Repr

/-- One printed line of the script, one constructor per `print` call,
carrying the interpolated data. -/
inductive OutLine where
  | readingFrom
  | analyzingSite (i : Int)
  | separator
  | errorReading (e : String)
  | fermiEnergy (f : ℚ)
  | totalSites (n : Nat)
  | errorSiteIndex (i : Int) (n : Nat)
  | targetElement (s : String)
  | targetCoords (c : ℚ × ℚ × ℚ)
  | calculatingNote
  | resultsBanner
  | structureInfo (sites : List Site)
  | siteIndexInfo (i : Int)
  | elementInfo (s : String)
  | fermiInfo (f : ℚ)
  | tableHeading
  | centerRow (up down : ℚ)
  | fillingRow (up down : ℚ)
  | skewnessRow (up down : ℚ)
  | kurtosisRow (up down : ℚ)
  | widthRow (up down : ℚ)
  | magneticMoment (m : ℚ)
  | insightsHeading
  | spinSplitting (d : ℚ)
  | magneticMaterial (m : ℚ)
  | deepBonding (avg : ℚ)
  | shallowBonding (avg : ℚ)
  | analysisFailed
deriving DecidableEq, Repr

/-- The parsed DOS dataset: the crystal structure it carries
(`complete_dos.structure` in the source) and the five descriptor routines
owned by the external library, which may raise. -/
structure CompleteDos where
  dos_structure : List Site
  get_band_center : List Site → Spin → ERange → OrbitalType → Except String ℚ
  get_band_filling : List Site → Spin → OrbitalType → Except String ℚ
  get_band_skewness : List Site → Spin → ERange → OrbitalType → Except String ℚ
  get_band_kurtosis : List Site → Spin → ERange → OrbitalType → Except String ℚ
  get_band_width : List Site → Spin → ERange → OrbitalType → Except String ℚ

/-- A successfully parsed `Vasprun` object: the two attributes the script
reads, `efermi` and `complete_dos`. -/
structure VasprunData where
  efermi : ℚ
  complete_dos : CompleteDos

/-- Everything a run of `analyze_d_band_properties` produces: its Python
return value or uncaught exception, the lines it printed, and the trace of
library descriptor calls it made. -/
structure AnalyzeOutcome where
  result : Except String (Option (BandResults × List Site))
  output : List OutLine
  calls : List LibCall

/-- ENERGY_RANGE_FULL of the source (line 33): eV window for center,
skewness, kurtosis. -/
def ENERGY_RANGE_FULL : ERange := (-15, 15)

/-- ENERGY_RANGE_OCCUPIED of the source (line 34): eV window for band
width. -/
def ENERGY_RANGE_OCCUPIED : ERange := (-15, 0)

/-- ORBITAL_TYPE of the source (line 35). -/
def ORBITAL_TYPE : OrbitalType := OrbitalType.d

/-- TARGET_SITE_INDEX of the source (line 250). -/
def TARGET_SITE_INDEX : Int := 161

/-- Python list subscript `l[i]`: a negative index counts from the end;
out-of-range access raises `IndexError`. -/
def pyGetItem (l : List Site) (i : Int) : Except String Site :=
  let j : Int := if i < 0 then (l.length : Int) + i else i
  if 0 ≤ j then
    match l.get? j.toNat with
    | some s => Except.ok s
    | none => Except.error "IndexError"
  else
    Except.error "IndexError"

/-- Embedding of `analyze_d_band_properties` (lines 16-167).  The file read
and parse is abstracted into `parse_result`: `Except.error e` when
`Vasprun(vasprun_file_path)` raises (file missing, malformed, missing
sections), `Except.ok` with the parsed data otherwise.  The `try` block of
lines 42-53 catches exactly that; everything after it is unguarded. -/
def analyze_d_band_properties (parse_result : Except String VasprunData)
    (target_site_index : Int) : AnalyzeOutcome :=
  let header : List OutLine :=
    [OutLine.readingFrom, OutLine.analyzingSite target_site_index, OutLine.separator]
  match parse_result with
  | Except.error e =>
    ⟨Except.ok none, header ++ [OutLine.errorReading e], []⟩
  | Except.ok vasprun_data =>
    let fermi_energy := vasprun_data.efermi
    let complete_dos_data := vasprun_data.complete_dos
    let crystal_structure := complete_dos_data.dos_structure
    let out1 := header ++
      [OutLine.fermiEnergy fermi_energy, OutLine.totalSites crystal_structure.length]
    if (crystal_structure.length : Int) ≤ target_site_index then
      ⟨Except.ok none,
       out1 ++ [OutLine.errorSiteIndex target_site_index crystal_structure.length], []⟩
    else
      match pyGetItem crystal_structure target_site_index with
      | Except.error e => ⟨Except.error e, out1, []⟩
      | Except.ok target_site =>
        let out2 := out1 ++
          [OutLine.targetElement target_site.species_string,
           OutLine.targetCoords target_site.frac_coords, OutLine.calculatingNote]
        let c1 := LibCall.center [target_site] Spin.up ENERGY_RANGE_FULL ORBITAL_TYPE
        match complete_dos_data.get_band_center [target_site] Spin.up ENERGY_RANGE_FULL ORBITAL_TYPE with
        | Except.error e => ⟨Except.error e, out2, [c1]⟩
        | Except.ok d_band_center_spin_up =>
        let c2 := LibCall.center [target_site] Spin.down ENERGY_RANGE_FULL ORBITAL_TYPE
        match complete_dos_data.get_band_center [target_site] Spin.down ENERGY_RANGE_FULL ORBITAL_TYPE with
        | Except.error e => ⟨Except.error e, out2, [c1, c2]⟩
        | Except.ok d_band_center_spin_down =>
        let c3 := LibCall.filling [target_site] Spin.up ORBITAL_TYPE
        match complete_dos_data.get_band_filling [target_site] Spin.up ORBITAL_TYPE with
        | Except.error e => ⟨Except.error e, out2, [c1, c2, c3]⟩
        | Except.ok d_band_filling_spin_up =>
        let c4 := LibCall.filling [target_site] Spin.down ORBITAL_TYPE
        match complete_dos_data.get_band_filling [target_site] Spin.down ORBITAL_TYPE with
        | Except.error e => ⟨Except.error e, out2, [c1, c2, c3, c4]⟩
        | Except.ok d_band_filling_spin_down =>
        let c5 := LibCall.skewness [target_site] Spin.up ENERGY_RANGE_FULL ORBITAL_TYPE
        match complete_dos_data.get_band_skewness [target_site] Spin.up ENERGY_RANGE_FULL ORBITAL_TYPE with
        | Except.error e => ⟨Except.error e, out2, [c1, c2, c3, c4, c5]⟩
        | Except.ok d_band_skewness_spin_up =>
        let c6 := LibCall.skewness [target_site] Spin.down ENERGY_RANGE_FULL ORBITAL_TYPE
        match complete_dos_data.get_band_skewness [target_site] Spin.down ENERGY_RANGE_FULL ORBITAL_TYPE with
        | Except.error e => ⟨Except.error e, out2, [c1, c2, c3, c4, c5, c6]⟩
        | Except.ok d_band_skewness_spin_down =>
        let c7 := LibCall.kurtosis [target_site] Spin.up ENERGY_RANGE_FULL ORBITAL_TYPE
        match complete_dos_data.get_band_kurtosis [target_site] Spin.up ENERGY_RANGE_FULL ORBITAL_TYPE with
        | Except.error e => ⟨Except.error e, out2, [c1, c2, c3, c4, c5, c6, c7]⟩
        | Except.ok d_band_kurtosis_spin_up =>
        let c8 := LibCall.kurtosis [target_site] Spin.down ENERGY_RANGE_FULL ORBITAL_TYPE
        match complete_dos_data.get_band_kurtosis [target_site] Spin.down ENERGY_RANGE_FULL ORBITAL_TYPE with
        | Except.error e => ⟨Except.error e, out2, [c1, c2, c3, c4, c5, c6, c7, c8]⟩
        | Except.ok d_band_kurtosis_spin_down =>
        let c9 := LibCall.width [target_site] Spin.up ENERGY_RANGE_OCCUPIED ORBITAL_TYPE
        match complete_dos_data.get_band_width [target_site] Spin.up ENERGY_RANGE_OCCUPIED ORBITAL_TYPE with
        | Except.error e => ⟨Except.error e, out2, [c1, c2, c3, c4, c5, c6, c7, c8, c9]⟩
        | Except.ok d_band_width_spin_up =>
        let c10 := LibCall.width [target_site] Spin.down ENERGY_RANGE_OCCUPIED ORBITAL_TYPE
        match complete_dos_data.get_band_width [target_site] Spin.down ENERGY_RANGE_OCCUPIED ORBITAL_TYPE with
        | Except.error e => ⟨Except.error e, out2, [c1, c2, c3, c4, c5, c6, c7, c8, c9, c10]⟩
        | Except.ok d_band_width_spin_down =>
          ⟨Except.ok (some
            ({ fermi_energy := fermi_energy
               site_index := target_site_index
               site_element := target_site.species_string
               band_centers := ⟨d_band_center_spin_up, d_band_center_spin_down⟩
               band_fillings := ⟨d_band_filling_spin_up, d_band_filling_spin_down⟩
               band_skewness := ⟨d_band_skewness_spin_up, d_band_skewness_spin_down⟩
               band_kurtosis := ⟨d_band_kurtosis_spin_up, d_band_kurtosis_spin_down⟩
               band_widths := ⟨d_band_width_spin_up, d_band_width_spin_down⟩ }, crystal_structure)),
           out2, [c1, c2, c3, c4, c5, c6, c7, c8, c9, c10]⟩

/-- Embedding of `print_analysis_results` (lines 170-242): the list of
lines it prints for a given result record and structure. -/
def print_analysis_results (results : BandResults) (crystal_structure : List Site) :
    List OutLine :=
  let magnetic_moment :=
    results.band_fillings.spin_up - results.band_fillings.spin_down
  let center_up := results.band_centers.spin_up
  let center_down := results.band_centers.spin_down
  let avg_center := (center_up + center_down) / 2
  [OutLine.resultsBanner,
   OutLine.structureInfo crystal_structure,
   OutLine.siteIndexInfo results.site_index,
   OutLine.elementInfo results.site_element,
   OutLine.fermiInfo results.fermi_energy,
   OutLine.tableHeading,
   OutLine.centerRow results.band_centers.spin_up results.band_centers.spin_down,
   OutLine.fillingRow results.band_fillings.spin_up results.band_fillings.spin_down,
   OutLine.skewnessRow results.band_skewness.spin_up results.band_skewness.spin_down,
   OutLine.kurtosisRow results.band_kurtosis.spin_up results.band_kurtosis.spin_down,
   OutLine.widthRow results.band_widths.spin_up results.band_widths.spin_down,
   OutLine.magneticMoment magnetic_moment,
   OutLine.insightsHeading]
  ++ (if 1/10 < |center_up - center_down|
      then [OutLine.spinSplitting |center_up - center_down|] else [])
  ++ (if 1/10 < |magnetic_moment|
      then [OutLine.magneticMaterial magnetic_moment] else [])
  ++ (if avg_center < -2 then [OutLine.deepBonding avg_center]
      else if -1 < avg_center then [OutLine.shallowBonding avg_center]
      else [])

/-- Embedding of `main` (lines 245-265): runs the analysis at index
`TARGET_SITE_INDEX`, prints the failure diagnostic on the `None` sentinel,
otherwise prints the report.  `Except.ok` of the full transcript models a
normal return (process exit code 0); `Except.error` models an uncaught
exception. -/
def run_main (parse_result : Except String VasprunData) :
    Except String (List OutLine) :=
  match analyze_d_band_properties parse_result TARGET_SITE_INDEX with
  | ⟨Except.error e, _, _⟩ => Except.error e
  | ⟨Except.ok none, out, _⟩ => Except.ok (out ++ [OutLine.analysisFailed])
  | ⟨Except.ok (some (results, st)), out, _⟩ =>
      Except.ok (out ++ print_analysis_results results st)

/-! ### Predicates used to state the Reporter claims -/

/-- Recognises the `d-electron magnetic moment` line. -/
def isMagneticMomentLine : OutLine → Bool
  | OutLine.magneticMoment _ => true
  | _ => false

/-- Recognises the spin-splitting insight line. -/
def isSpinSplittingLine : OutLine → Bool
  | OutLine.spinSplitting _ => true
  | _ => false

/-- Recognises the magnetic-material insight line. -/
def isMagneticMaterialLine : OutLine → Bool
  | OutLine.magneticMaterial _ => true
  | _ => false

/-- Recognises either bonding-commentary line. -/
def isBondingLine : OutLine → Bool
  | OutLine.deepBonding _ => true
  | OutLine.shallowBonding _ => true
  | _ => false

/-- The energy-window discipline claimed for the Analyzer stage: center,
skewness and kurtosis calls use the wide window, width calls the occupied
window; a filling call carries no window at all, so there is nothing to
constrain. -/
def callWindowOk : LibCall → Prop
  | LibCall.center _ _ er _ => er = ENERGY_RANGE_FULL
  | LibCall.skewness _ _ er _ => er = ENERGY_RANGE_FULL
  | LibCall.kurtosis _ _ er _ => er = ENERGY_RANGE_FULL
  | LibCall.width _ _ er _ => er = ENERGY_RANGE_OCCUPIED
  | LibCall.filling _ _ _ => True

/-- First raised exception of a straight-line sequence of library results,
`none` when every call succeeds. -/
def firstError : List (Except String ℚ) → Option String
  | [] => none
  | Except.error e :: _ => some e
  | Except.ok _ :: rest => firstError rest

/-! ### Concrete data used by the witness theorems -/

/-- A concrete site. -/
def siteFe : Site := ⟨"Fe", (0, 0, 0)⟩

/-- A second concrete site. -/
def siteO : Site := ⟨"O", (1/2, 1/2, 1/2)⟩

/-- A concrete DOS dataset over two sites whose descriptor routines always
succeed with simple constants. -/
def dosEx : CompleteDos where
  dos_structure := [siteFe, siteO]
  get_band_center := fun _ sp _ _ =>
    Except.ok (match sp with | Spin.up => -2 | Spin.down => -1)
  get_band_filling := fun _ sp _ =>
    Except.ok (match sp with | Spin.up => 9/10 | Spin.down => 1/2)
  get_band_skewness := fun _ _ _ _ => Except.ok 0
  get_band_kurtosis := fun _ _ _ _ => Except.ok 3
  get_band_width := fun _ _ _ _ => Except.ok 2

/-- A concrete parsed calculation built on `dosEx`. -/
def vdEx : VasprunData := ⟨5/2, dosEx⟩

/-- A concrete DOS dataset whose first descriptor routine raises, standing
for a calculation without d-projected DOS for the site. -/
def dosRaise : CompleteDos where
  dos_structure := [siteFe, siteO]
  get_band_center := fun _ _ _ _ => Except.error "no d DOS"
  get_band_filling := fun _ _ _ => Except.ok 0
  get_band_skewness := fun _ _ _ _ => Except.ok 0
  get_band_kurtosis := fun _ _ _ _ => Except.ok 0
  get_band_width := fun _ _ _ _ => Except.ok 0

/-- A concrete parsed calculation built on `dosRaise`. -/
def vdRaise : VasprunData := ⟨0, dosRaise⟩

/-- A concrete result record with band centers averaging −1.5 eV. -/
def resultsMid : BandResults where
  fermi_energy := 0
  site_index := 0
  site_element := "Fe"
  band_centers := ⟨-2, -1⟩
  band_fillings := ⟨9/10, 1/2⟩
  band_skewness := ⟨0, 0⟩
  band_kurtosis := ⟨3, 3⟩
  band_widths := ⟨2, 2⟩

/-! ### Claim theorems -/

/-- C1: the magnetic-moment line the Reporter prints is exactly one, and it
carries `band_fillings.spin_up - band_fillings.spin_down` taken from the
result record itself — no independent recomputation. -/
theorem magnetic_moment_matches_fillings (results : BandResults)
    (crystal_structure : List Site) :
    (print_analysis_results results crystal_structure).filter isMagneticMomentLine
      = [OutLine.magneticMoment
          (results.band_fillings.spin_up - results.band_fillings.spin_down)] := by
  simp only [print_analysis_results]
  split_ifs <;> simp [isMagneticMomentLine]

/-- C4: the bonding-commentary lines of the report are governed by the
average of the two band centers: deep/strong bonding exactly when the
average is below −2 eV, shallow/weak bonding exactly when it is above
−1 eV, and no bonding comment in between. -/
theorem bonding_commentary_thresholds (results : BandResults)
    (crystal_structure : List Site) :
    (print_analysis_results results crystal_structure).filter isBondingLine
      = (if (results.band_centers.spin_up + results.band_centers.spin_down) / 2 < -2
         then [OutLine.deepBonding
                ((results.band_centers.spin_up + results.band_centers.spin_down) / 2)]
         else if -1 < (results.band_centers.spin_up + results.band_centers.spin_down) / 2
         then [OutLine.shallowBonding
                ((results.band_centers.spin_up + results.band_centers.spin_down) / 2)]
         else []) := by
  simp only [print_analysis_results]
  split_ifs <;> simp [isBondingLine]

/-- C6: the spin-splitting line is printed exactly when the absolute
difference of the two band centers exceeds 0.1 eV, and it carries that
difference. -/
theorem spin_splitting_flag_iff (results : BandResults)
    (crystal_structure : List Site) :
    (print_analysis_results results crystal_structure).filter isSpinSplittingLine
      = (if 1/10 < |results.band_centers.spin_up - results.band_centers.spin_down|
         then [OutLine.spinSplitting
                |results.band_centers.spin_up - results.band_centers.spin_down|]
         else []) := by
  simp only [print_analysis_results]
  split_ifs <;> simp [isSpinSplittingLine]

/-- C7: the magnetic-material line is printed exactly when the absolute
magnetic moment (spin-up filling minus spin-down filling) exceeds 0.1, and
it carries that moment. -/
theorem magnetic_material_flag_iff (results : BandResults)
    (crystal_structure : List Site) :
    (print_analysis_results results crystal_structure).filter isMagneticMaterialLine
      = (if 1/10 < |results.band_fillings.spin_up - results.band_fillings.spin_down|
         then [OutLine.magneticMaterial
                (results.band_fillings.spin_up - results.band_fillings.spin_down)]
         else []) := by
  simp only [print_analysis_results]
  split_ifs <;> simp [isMagneticMaterialLine]

/-- C2: whenever the target site index is at least the number of sites in
the parsed structure, the run prints the bounds-error line, returns the
`None` sentinel, and makes no descriptor call at all — the Analyzer stage
is never invoked. -/
theorem bounds_error_skips_analyzer (vd : VasprunData) (i : Int)
    (h : (vd.complete_dos.dos_structure.length : Int) ≤ i) :
    (analyze_d_band_properties (Except.ok vd) i).result = Except.ok none ∧
    OutLine.errorSiteIndex i vd.complete_dos.dos_structure.length
      ∈ (analyze_d_band_properties (Except.ok vd) i).output ∧
    (analyze_d_band_properties (Except.ok vd) i).calls = [] := by
  simp [analyze_d_band_properties, h]

/-- C2 witness: a structure with two sites and requested index 5. -/
theorem bounds_error_skips_analyzer_witness :
    (analyze_d_band_properties (Except.ok vdEx) 5).result = Except.ok none ∧
    OutLine.errorSiteIndex 5 vdEx.complete_dos.dos_structure.length
      ∈ (analyze_d_band_properties (Except.ok vdEx) 5).output ∧
    (analyze_d_band_properties (Except.ok vdEx) 5).calls = [] :=
  bounds_error_skips_analyzer vdEx 5 (by decide)

/-- C3: whenever parsing the calculation output raises, the exception is
caught: the run prints the read-error line and returns the `None` sentinel
instead of propagating; `main` then prints the failure diagnostic and
returns normally, and on a successful analysis `main` also returns
normally — so the process raises nothing and exits 0 in both cases. -/
theorem parse_failure_handled (e : String) (i : Int) :
    (analyze_d_band_properties (Except.error e) i).result = Except.ok none ∧
    OutLine.errorReading e ∈ (analyze_d_band_properties (Except.error e) i).output ∧
    run_main (Except.error e)
      = Except.ok ((analyze_d_band_properties (Except.error e) TARGET_SITE_INDEX).output
          ++ [OutLine.analysisFailed]) ∧
    (∀ pr results st,
      (analyze_d_band_properties pr TARGET_SITE_INDEX).result
          = Except.ok (some (results, st)) →
      run_main pr
        = Except.ok ((analyze_d_band_properties pr TARGET_SITE_INDEX).output
            ++ print_analysis_results results st)) := by
  refine ⟨by simp [analyze_d_band_properties], by simp [analyze_d_band_properties],
    by simp [run_main, analyze_d_band_properties], ?_⟩
  intro pr results st h
  rcases hA : analyze_d_band_properties pr TARGET_SITE_INDEX with ⟨res, out, calls⟩
  rw [hA] at h
  simp only at h
  subst h
  unfold run_main
  rw [hA]

/-- A parsed calculation with 162 identical sites, so the script's default
site index 161 is valid. -/
def vdBig : VasprunData :=
  ⟨5/2, { dosEx with dos_structure := List.replicate 162 siteFe }⟩

/-- The record the analysis of `vdBig` produces at site 161. -/
def resultsBig : BandResults where
  fermi_energy := 5/2
  site_index := 161
  site_element := "Fe"
  band_centers := ⟨-2, -1⟩
  band_fillings := ⟨9/10, 1/2⟩
  band_skewness := ⟨0, 0⟩
  band_kurtosis := ⟨3, 3⟩
  band_widths := ⟨2, 2⟩

set_option maxRecDepth 8000 in
/-- C3 witness: a concrete parse failure is handled, and a concrete
successful run also returns normally. -/
theorem parse_failure_handled_witness :
    (analyze_d_band_properties (Except.error "boom") 0).result = Except.ok none ∧
    run_main (Except.ok vdBig)
      = Except.ok ((analyze_d_band_properties (Except.ok vdBig) TARGET_SITE_INDEX).output
          ++ print_analysis_results resultsBig (List.replicate 162 siteFe)) :=
  ⟨(parse_failure_handled "boom" 0).1,
   (parse_failure_handled "boom" 0).2.2.2 (Except.ok vdBig) resultsBig
     (List.replicate 162 siteFe) (by rfl)⟩

/-- C5: every descriptor call any run makes obeys the energy-window
discipline: band center, skewness and kurtosis over the wide window
[−15, 15] eV, band width over the occupied window [−15, 0] eV, and band
filling with no energy-window argument at all (the `LibCall.filling`
constructor, like the source call, carries none). -/
theorem descriptor_energy_windows (pr : Except String VasprunData) (i : Int) :
    (analyze_d_band_properties pr i).calls.Forall callWindowOk := by
  rcases pr with e | vd
  · simp [analyze_d_band_properties, List.Forall]
  simp only [analyze_d_band_properties]
  by_cases hb : (vd.complete_dos.dos_structure.length : Int) ≤ i
  · simp [hb, List.Forall]
  simp only [if_neg hb]
  rcases hg : pyGetItem vd.complete_dos.dos_structure i with e | site
  · simp [hg, List.Forall]
  simp only [hg]
  rcases h1 : vd.complete_dos.get_band_center [site] Spin.up ENERGY_RANGE_FULL ORBITAL_TYPE with e | v1
  · simp [h1, List.Forall, callWindowOk]
  simp only [h1]
  rcases h2 : vd.complete_dos.get_band_center [site] Spin.down ENERGY_RANGE_FULL ORBITAL_TYPE with e | v2
  · simp [h2, List.Forall, callWindowOk]
  simp only [h2]
  rcases h3 : vd.complete_dos.get_band_filling [site] Spin.up ORBITAL_TYPE with e | v3
  · simp [h3, List.Forall, callWindowOk]
  simp only [h3]
  rcases h4 : vd.complete_dos.get_band_filling [site] Spin.down ORBITAL_TYPE with e | v4
  · simp [h4, List.Forall, callWindowOk]
  simp only [h4]
  rcases h5 : vd.complete_dos.get_band_skewness [site] Spin.up ENERGY_RANGE_FULL ORBITAL_TYPE with e | v5
  · simp [h5, List.Forall, callWindowOk]
  simp only [h5]
  rcases h6 : vd.complete_dos.get_band_skewness [site] Spin.down ENERGY_RANGE_FULL ORBITAL_TYPE with e | v6
  · simp [h6, List.Forall, callWindowOk]
  simp only [h6]
  rcases h7 : vd.complete_dos.get_band_kurtosis [site] Spin.up ENERGY_RANGE_FULL ORBITAL_TYPE with e | v7
  · simp [h7, List.Forall, callWindowOk]
  simp only [h7]
  rcases h8 : vd.complete_dos.get_band_kurtosis [site] Spin.down ENERGY_RANGE_FULL ORBITAL_TYPE with e | v8
  · simp [h8, List.Forall, callWindowOk]
  simp only [h8]
  rcases h9 : vd.complete_dos.get_band_width [site] Spin.up ENERGY_RANGE_OCCUPIED ORBITAL_TYPE with e | v9
  · simp [h9, List.Forall, callWindowOk]
  simp only [h9]
  rcases h10 : vd.complete_dos.get_band_width [site] Spin.down ENERGY_RANGE_OCCUPIED ORBITAL_TYPE with e | v10
  · simp [h10, List.Forall, callWindowOk]
  simp only [h10]
  simp [List.Forall, callWindowOk]

/-- C8: on a successful run — file parsed, site index valid, all library
calls succeed — the analysis returns the result record holding exactly the
ten descriptor scalars (center, filling, skewness, kurtosis, width, one
value per spin channel) plus the echoed metadata `fermi_energy`,
`site_index` and `site_element`, paired with the crystal structure. -/
theorem success_returns_full_record (vd : VasprunData) (i : Int) (site : Site)
    (cu cd fu fd su sd ku kd wu wd : ℚ)
    (hge : 0 ≤ i)
    (hlt : i < (vd.complete_dos.dos_structure.length : Int))
    (hsite : pyGetItem vd.complete_dos.dos_structure i = Except.ok site)
    (h1 : vd.complete_dos.get_band_center [site] Spin.up ENERGY_RANGE_FULL ORBITAL_TYPE
            = Except.ok cu)
    (h2 : vd.complete_dos.get_band_center [site] Spin.down ENERGY_RANGE_FULL ORBITAL_TYPE
            = Except.ok cd)
    (h3 : vd.complete_dos.get_band_filling [site] Spin.up ORBITAL_TYPE = Except.ok fu)
    (h4 : vd.complete_dos.get_band_filling [site] Spin.down ORBITAL_TYPE = Except.ok fd)
    (h5 : vd.complete_dos.get_band_skewness [site] Spin.up ENERGY_RANGE_FULL ORBITAL_TYPE
            = Except.ok su)
    (h6 : vd.complete_dos.get_band_skewness [site] Spin.down ENERGY_RANGE_FULL ORBITAL_TYPE
            = Except.ok sd)
    (h7 : vd.complete_dos.get_band_kurtosis [site] Spin.up ENERGY_RANGE_FULL ORBITAL_TYPE
            = Except.ok ku)
    (h8 : vd.complete_dos.get_band_kurtosis [site] Spin.down ENERGY_RANGE_FULL ORBITAL_TYPE
            = Except.ok kd)
    (h9 : vd.complete_dos.get_band_width [site] Spin.up ENERGY_RANGE_OCCUPIED ORBITAL_TYPE
            = Except.ok wu)
    (h10 : vd.complete_dos.get_band_width [site] Spin.down ENERGY_RANGE_OCCUPIED ORBITAL_TYPE
            = Except.ok wd) :
    (analyze_d_band_properties (Except.ok vd) i).result
      = Except.ok (some
          ({ fermi_energy := vd.efermi
             site_index := i
             site_element := site.species_string
             band_centers := ⟨cu, cd⟩
             band_fillings := ⟨fu, fd⟩
             band_skewness := ⟨su, sd⟩
             band_kurtosis := ⟨ku, kd⟩
             band_widths := ⟨wu, wd⟩ }, vd.complete_dos.dos_structure)) := by
  simp only [analyze_d_band_properties, if_neg (not_le.mpr hlt), hsite,
    h1, h2, h3, h4, h5, h6, h7, h8, h9, h10]

/-- C8 witness: the two-site example analysed at site 0. -/
theorem success_returns_full_record_witness :
    (analyze_d_band_properties (Except.ok vdEx) 0).result
      = Except.ok (some
          ({ fermi_energy := vdEx.efermi
             site_index := 0
             site_element := siteFe.species_string
             band_centers := ⟨-2, -1⟩
             band_fillings := ⟨9/10, 1/2⟩
             band_skewness := ⟨0, 0⟩
             band_kurtosis := ⟨3, 3⟩
             band_widths := ⟨2, 2⟩ }, vdEx.complete_dos.dos_structure)) :=
  success_returns_full_record vdEx 0 siteFe (-2) (-1) (9/10) (1/2) 0 0 3 3 2 2
    (by decide) (by decide) (by rfl) (by rfl) (by rfl) (by rfl) (by rfl)
    (by rfl) (by rfl) (by rfl) (by rfl) (by rfl) (by rfl)

/-- C9: once the file has loaded and the site-index validation has passed,
an exception raised by any of the ten descriptor computations is caught
nowhere: it becomes the result of `analyze_d_band_properties`, and `main`
passes any such exception through unhandled. -/
theorem analyzer_exception_propagates (vd : VasprunData) (i : Int) (site : Site)
    (e : String)
    (hnb : ¬ ((vd.complete_dos.dos_structure.length : Int) ≤ i))
    (hsite : pyGetItem vd.complete_dos.dos_structure i = Except.ok site)
    (hfe : firstError
        [vd.complete_dos.get_band_center [site] Spin.up ENERGY_RANGE_FULL ORBITAL_TYPE,
         vd.complete_dos.get_band_center [site] Spin.down ENERGY_RANGE_FULL ORBITAL_TYPE,
         vd.complete_dos.get_band_filling [site] Spin.up ORBITAL_TYPE,
         vd.complete_dos.get_band_filling [site] Spin.down ORBITAL_TYPE,
         vd.complete_dos.get_band_skewness [site] Spin.up ENERGY_RANGE_FULL ORBITAL_TYPE,
         vd.complete_dos.get_band_skewness [site] Spin.down ENERGY_RANGE_FULL ORBITAL_TYPE,
         vd.complete_dos.get_band_kurtosis [site] Spin.up ENERGY_RANGE_FULL ORBITAL_TYPE,
         vd.complete_dos.get_band_kurtosis [site] Spin.down ENERGY_RANGE_FULL ORBITAL_TYPE,
         vd.complete_dos.get_band_width [site] Spin.up ENERGY_RANGE_OCCUPIED ORBITAL_TYPE,
         vd.complete_dos.get_band_width [site] Spin.down ENERGY_RANGE_OCCUPIED ORBITAL_TYPE]
        = some e) :
    (analyze_d_band_properties (Except.ok vd) i).result = Except.error e ∧
    (∀ pr, (analyze_d_band_properties pr TARGET_SITE_INDEX).result = Except.error e →
       run_main pr = Except.error e) := by
  constructor
  · simp only [analyze_d_band_properties, if_neg hnb, hsite]
    rcases h1 : vd.complete_dos.get_band_center [site] Spin.up ENERGY_RANGE_FULL ORBITAL_TYPE with e1 | v1
    · rw [h1] at hfe
      simp only [firstError, Option.some.injEq] at hfe
      simp [h1, hfe]
    rw [h1] at hfe
    simp only [firstError] at hfe
    simp only [h1]
    rcases h2 : vd.complete_dos.get_band_center [site] Spin.down ENERGY_RANGE_FULL ORBITAL_TYPE with e2 | v2
    · rw [h2] at hfe
      simp only [firstError, Option.some.injEq] at hfe
      simp [h2, hfe]
    rw [h2] at hfe
    simp only [firstError] at hfe
    simp only [h2]
    rcases h3 : vd.complete_dos.get_band_filling [site] Spin.up ORBITAL_TYPE with e3 | v3
    · rw [h3] at hfe
      simp only [firstError, Option.some.injEq] at hfe
      simp [h3, hfe]
    rw [h3] at hfe
    simp only [firstError] at hfe
    simp only [h3]
    rcases h4 : vd.complete_dos.get_band_filling [site] Spin.down ORBITAL_TYPE with e4 | v4
    · rw [h4] at hfe
      simp only [firstError, Option.some.injEq] at hfe
      simp [h4, hfe]
    rw [h4] at hfe
    simp only [firstError] at hfe
    simp only [h4]
    rcases h5 : vd.complete_dos.get_band_skewness [site] Spin.up ENERGY_RANGE_FULL ORBITAL_TYPE with e5 | v5
    · rw [h5] at hfe
      simp only [firstError, Option.some.injEq] at hfe
      simp [h5, hfe]
    rw [h5] at hfe
    simp only [firstError] at hfe
    simp only [h5]
    rcases h6 : vd.complete_dos.get_band_skewness [site] Spin.down ENERGY_RANGE_FULL ORBITAL_TYPE with e6 | v6
    · rw [h6] at hfe
      simp only [firstError, Option.some.injEq] at hfe
      simp [h6, hfe]
    rw [h6] at hfe
    simp only [firstError] at hfe
    simp only [h6]
    rcases h7 : vd.complete_dos.get_band_kurtosis [site] Spin.up ENERGY_RANGE_FULL ORBITAL_TYPE with e7 | v7
    · rw [h7] at hfe
      simp only [firstError, Option.some.injEq] at hfe
      simp [h7, hfe]
    rw [h7] at hfe
    simp only [firstError] at hfe
    simp only [h7]
    rcases h8 : vd.complete_dos.get_band_kurtosis [site] Spin.down ENERGY_RANGE_FULL ORBITAL_TYPE with e8 | v8
    · rw [h8] at hfe
      simp only [firstError, Option.some.injEq] at hfe
      simp [h8, hfe]
    rw [h8] at hfe
    simp only [firstError] at hfe
    simp only [h8]
    rcases h9 : vd.complete_dos.get_band_width [site] Spin.up ENERGY_RANGE_OCCUPIED ORBITAL_TYPE with e9 | v9
    · rw [h9] at hfe
      simp only [firstError, Option.some.injEq] at hfe
      simp [h9, hfe]
    rw [h9] at hfe
    simp only [firstError] at hfe
    simp only [h9]
    rcases h10 : vd.complete_dos.get_band_width [site] Spin.down ENERGY_RANGE_OCCUPIED ORBITAL_TYPE with e10 | v10
    · rw [h10] at hfe
      simp only [firstError, Option.some.injEq] at hfe
      simp [h10, hfe]
    rw [h10] at hfe
    simp only [firstError] at hfe
    exact absurd hfe (by simp)
  · intro pr h
    rcases hA : analyze_d_band_properties pr TARGET_SITE_INDEX with ⟨res, out, calls⟩
    rw [hA] at h
    simp only at h
    subst h
    unfold run_main
    rw [hA]

/-- C9 witness: a calculation whose first descriptor call raises propagates
that exception out of the analysis. -/
theorem analyzer_exception_propagates_witness :
    (analyze_d_band_properties (Except.ok vdRaise) 0).result
      = Except.error "no d DOS" :=
  (analyzer_exception_propagates vdRaise 0 siteFe "no d DOS"
    (by decide) (by rfl) (by rfl)).1

/-- Shape of any run that passes parsing and the site-index validation: the
output is exactly the eight progress lines (in particular it contains the
target-element line and no bounds-error line), and the result is never the
`None` sentinel — it is either the success record or a propagated
exception. -/
theorem analyze_valid_output_result (vd : VasprunData) (i : Int) (site : Site)
    (hnb : ¬ ((vd.complete_dos.dos_structure.length : Int) ≤ i))
    (hsite : pyGetItem vd.complete_dos.dos_structure i = Except.ok site) :
    (analyze_d_band_properties (Except.ok vd) i).output
      = [OutLine.readingFrom, OutLine.analyzingSite i, OutLine.separator,
         OutLine.fermiEnergy vd.efermi,
         OutLine.totalSites vd.complete_dos.dos_structure.length,
         OutLine.targetElement site.species_string,
         OutLine.targetCoords site.frac_coords, OutLine.calculatingNote] ∧
    (analyze_d_band_properties (Except.ok vd) i).result ≠ Except.ok none := by
  simp only [analyze_d_band_properties, if_neg hnb, hsite]
  rcases h1 : vd.complete_dos.get_band_center [site] Spin.up ENERGY_RANGE_FULL ORBITAL_TYPE with e1 | v1
  · simp [h1]
  simp only [h1]
  rcases h2 : vd.complete_dos.get_band_center [site] Spin.down ENERGY_RANGE_FULL ORBITAL_TYPE with e2 | v2
  · simp [h2]
  simp only [h2]
  rcases h3 : vd.complete_dos.get_band_filling [site] Spin.up ORBITAL_TYPE with e3 | v3
  · simp [h3]
  simp only [h3]
  rcases h4 : vd.complete_dos.get_band_filling [site] Spin.down ORBITAL_TYPE with e4 | v4
  · simp [h4]
  simp only [h4]
  rcases h5 : vd.complete_dos.get_band_skewness [site] Spin.up ENERGY_RANGE_FULL ORBITAL_TYPE with e5 | v5
  · simp [h5]
  simp only [h5]
  rcases h6 : vd.complete_dos.get_band_skewness [site] Spin.down ENERGY_RANGE_FULL ORBITAL_TYPE with e6 | v6
  · simp [h6]
  simp only [h6]
  rcases h7 : vd.complete_dos.get_band_kurtosis [site] Spin.up ENERGY_RANGE_FULL ORBITAL_TYPE with e7 | v7
  · simp [h7]
  simp only [h7]
  rcases h8 : vd.complete_dos.get_band_kurtosis [site] Spin.down ENERGY_RANGE_FULL ORBITAL_TYPE with e8 | v8
  · simp [h8]
  simp only [h8]
  rcases h9 : vd.complete_dos.get_band_width [site] Spin.up ENERGY_RANGE_OCCUPIED ORBITAL_TYPE with e9 | v9
  · simp [h9]
  simp only [h9]
  rcases h10 : vd.complete_dos.get_band_width [site] Spin.down ENERGY_RANGE_OCCUPIED ORBITAL_TYPE with e10 | v10
  · simp [h10]
  simp only [h10]
  simp

/-- The descriptor-call trace of a validated run depends only on the parsed
data and the resolved site, not on the raw index that resolved to it. -/
theorem analyze_calls_depend_only_on_site (vd : VasprunData) (i j : Int) (site : Site)
    (hnbi : ¬ ((vd.complete_dos.dos_structure.length : Int) ≤ i))
    (hi : pyGetItem vd.complete_dos.dos_structure i = Except.ok site)
    (hnbj : ¬ ((vd.complete_dos.dos_structure.length : Int) ≤ j))
    (hj : pyGetItem vd.complete_dos.dos_structure j = Except.ok site) :
    (analyze_d_band_properties (Except.ok vd) i).calls
      = (analyze_d_band_properties (Except.ok vd) j).calls := by
  simp only [analyze_d_band_properties, if_neg hnbi, if_neg hnbj, hi, hj]
  rcases h1 : vd.complete_dos.get_band_center [site] Spin.up ENERGY_RANGE_FULL ORBITAL_TYPE with e1 | v1
  · simp [h1]
  simp only [h1]
  rcases h2 : vd.complete_dos.get_band_center [site] Spin.down ENERGY_RANGE_FULL ORBITAL_TYPE with e2 | v2
  · simp [h2]
  simp only [h2]
  rcases h3 : vd.complete_dos.get_band_filling [site] Spin.up ORBITAL_TYPE with e3 | v3
  · simp [h3]
  simp only [h3]
  rcases h4 : vd.complete_dos.get_band_filling [site] Spin.down ORBITAL_TYPE with e4 | v4
  · simp [h4]
  simp only [h4]
  rcases h5 : vd.complete_dos.get_band_skewness [site] Spin.up ENERGY_RANGE_FULL ORBITAL_TYPE with e5 | v5
  · simp [h5]
  simp only [h5]
  rcases h6 : vd.complete_dos.get_band_skewness [site] Spin.down ENERGY_RANGE_FULL ORBITAL_TYPE with e6 | v6
  · simp [h6]
  simp only [h6]
  rcases h7 : vd.complete_dos.get_band_kurtosis [site] Spin.up ENERGY_RANGE_FULL ORBITAL_TYPE with e7 | v7
  · simp [h7]
  simp only [h7]
  rcases h8 : vd.complete_dos.get_band_kurtosis [site] Spin.down ENERGY_RANGE_FULL ORBITAL_TYPE with e8 | v8
  · simp [h8]
  simp only [h8]
  rcases h9 : vd.complete_dos.get_band_width [site] Spin.up ENERGY_RANGE_OCCUPIED ORBITAL_TYPE with e9 | v9
  · simp [h9]
  simp only [h9]
  rcases h10 : vd.complete_dos.get_band_width [site] Spin.down ENERGY_RANGE_OCCUPIED ORBITAL_TYPE with e10 | v10
  · simp [h10]
  simp only [h10]

/-- C10: the site-index validation only rejects indices at or above the
site count.  A negative index that is at least minus the site count passes
the check and the analysis proceeds on the wrapped-around site at position
`site_count + index`; an index below minus the site count raises an
uncaught `IndexError`.  The lower bound of the documented
`[0, site_count)` invariant is never enforced. -/
theorem negative_site_index_wraps (vd : VasprunData) (i : Int) (hneg : i < 0) :
    (-(vd.complete_dos.dos_structure.length : Int) ≤ i →
       ∃ site,
         pyGetItem vd.complete_dos.dos_structure i = Except.ok site ∧
         vd.complete_dos.dos_structure.get?
             ((vd.complete_dos.dos_structure.length : Int) + i).toNat = some site ∧
         OutLine.targetElement site.species_string
           ∈ (analyze_d_band_properties (Except.ok vd) i).output ∧
         (analyze_d_band_properties (Except.ok vd) i).calls
           = (analyze_d_band_properties (Except.ok vd)
               ((vd.complete_dos.dos_structure.length : Int) + i)).calls ∧
         (analyze_d_band_properties (Except.ok vd) i).result ≠ Except.ok none) ∧
    (i < -(vd.complete_dos.dos_structure.length : Int) →
       (analyze_d_band_properties (Except.ok vd) i).result
         = Except.error "IndexError") := by
  constructor
  · intro hwrap
    have hnb : ¬ ((vd.complete_dos.dos_structure.length : Int) ≤ i) := by omega
    have hlt : ((vd.complete_dos.dos_structure.length : Int) + i).toNat
        < vd.complete_dos.dos_structure.length := by omega
    have hget : vd.complete_dos.dos_structure.get?
        ((vd.complete_dos.dos_structure.length : Int) + i).toNat
        = some (vd.complete_dos.dos_structure.get
            ⟨((vd.complete_dos.dos_structure.length : Int) + i).toNat, hlt⟩) :=
      List.get?_eq_get hlt
    have hgi : pyGetItem vd.complete_dos.dos_structure i
        = Except.ok (vd.complete_dos.dos_structure.get
            ⟨((vd.complete_dos.dos_structure.length : Int) + i).toNat, hlt⟩) := by
      simp only [pyGetItem, if_pos hneg]
      rw [if_pos (by omega : (0:Int) ≤ (vd.complete_dos.dos_structure.length : Int) + i)]
      rw [hget]
    have hnbj : ¬ ((vd.complete_dos.dos_structure.length : Int)
        ≤ (vd.complete_dos.dos_structure.length : Int) + i) := by omega
    have hgj : pyGetItem vd.complete_dos.dos_structure
        ((vd.complete_dos.dos_structure.length : Int) + i)
        = Except.ok (vd.complete_dos.dos_structure.get
            ⟨((vd.complete_dos.dos_structure.length : Int) + i).toNat, hlt⟩) := by
      simp only [pyGetItem]
      rw [if_neg (by omega : ¬ ((vd.complete_dos.dos_structure.length : Int) + i < 0))]
      rw [if_pos (by omega : (0:Int) ≤ (vd.complete_dos.dos_structure.length : Int) + i)]
      rw [hget]
    refine ⟨_, hgi, hget, ?_, ?_, (analyze_valid_output_result vd i _ hnb hgi).2⟩
    · rw [(analyze_valid_output_result vd i _ hnb hgi).1]
      simp
    · exact analyze_calls_depend_only_on_site vd i _ _ hnb hgi hnbj hgj
  · intro hout
    have hnb : ¬ ((vd.complete_dos.dos_structure.length : Int) ≤ i) := by omega
    have hg : pyGetItem vd.complete_dos.dos_structure i
        = Except.error "IndexError" := by
      simp only [pyGetItem, if_pos hneg]
      rw [if_neg (by omega : ¬ ((0:Int) ≤ (vd.complete_dos.dos_structure.length : Int) + i))]
    simp [analyze_d_band_properties, if_neg hnb, hg]

/-- C10 witness: on the two-site example, index −1 wraps to site 1. -/
theorem negative_site_index_wraps_witness :
    ∃ site,
      pyGetItem vdEx.complete_dos.dos_structure (-1) = Except.ok site ∧
      vdEx.complete_dos.dos_structure.get?
          ((vdEx.complete_dos.dos_structure.length : Int) + (-1)).toNat = some site ∧
      OutLine.targetElement site.species_string
        ∈ (analyze_d_band_properties (Except.ok vdEx) (-1)).output ∧
      (analyze_d_band_properties (Except.ok vdEx) (-1)).calls
        = (analyze_d_band_properties (Except.ok vdEx)
            ((vdEx.complete_dos.dos_structure.length : Int) + (-1))).calls ∧
      (analyze_d_band_properties (Except.ok vdEx) (-1)).result ≠ Except.ok none :=
  (negative_site_index_wraps vdEx (-1) (by decide)).1 (by decide)
